import Mathlib

/-!
Verification of the crime-incident dashboard pipeline (app.py / web.py).

The pandas data frames are embedded shallowly as lists of records. A CSV
cell that pandas would read as NaN is an `Option` that is `none`; numbers
are `Int`/`Rat`; the result of `pd.to_datetime(col, errors = coerce)` is
modelled as an `Option Timestamp` field (NaT = `none`, covering both a
missing and an unparseable date cell). Grouping keeps pandas semantics:
rows whose group key is missing are dropped from the grouped table, and
`Series.mode()` returns the modal values sorted ascending, so `mode()[0]`
is the least modal value. Key order of grouped tables is irrelevant to
every property proved here, so grouped tables enumerate keys by
deduplication instead of by sorted order.
-/

/-- A calendar timestamp as produced by a successful `pd.to_datetime`. -/
structure Timestamp where
  year : Int
  month : Nat
  day : Nat
deriving DecidableEq, Repr

/-- One raw CSV row of `robos_tot_final.csv` (the columns the pipeline
touches). `fecha` is the date column after the coercing parse of
app.py line 30: `none` = NaT (missing or unparseable). -/
structure Row where
  fecha : Option Timestamp
  latitud : Option Rat
  longitud : Option Rat
  tipo : Option String
  violencia : Option String
  hora : Option Int
  cuadrante : Option String
  distrito : Option String
deriving DecidableEq, Repr

/-- app.py line 31: the row survives `dropna(subset = FECHA, LATITUD,
LONGITUD)`. -/
def keepRow (r : Row) : Bool :=
  r.fecha.isSome && r.latitud.isSome && r.longitud.isSome

/-- The rows app.py line 31 drops: unparseable (or missing) date, or a
missing coordinate. -/
def droppedRow (r : Row) : Bool :=
  r.fecha.isNone || r.latitud.isNone || r.longitud.isNone

/-- app.py line 35: `HORA.replace(99, nan)` — the sentinel 99 becomes
missing, every other hour value is kept as is. -/
def horaCleanFn (h : Option Int) : Option Int :=
  match h with
  | none => none
  | some n => if n = 99 then none else some n

/-- Python `str.strip()` over the characters of the string: whitespace is
removed from both ends (the flag values of this dataset are ASCII, so the
ASCII whitespace class suffices). -/
def pyStrip (s : String) : String :=
  ⟨((s.data.dropWhile Char.isWhitespace).reverse.dropWhile Char.isWhitespace).reverse⟩

/-- Python `str.upper()` over the characters of the string (ASCII case
mapping, enough for the SI and NO flag values of this dataset). -/
def pyUpper (s : String) : String :=
  ⟨s.data.map Char.toUpper⟩

/-- app.py line 36: `VIOLENCIA.str.strip().str.upper()`; a NaN cell stays
NaN under pandas `.str` methods. -/
def stripUpperVio (v : Option String) : Option String :=
  match v with
  | none => none
  | some s => some (pyUpper (pyStrip s))

/-- app.py line 37: every value not exactly SI or NO (NaN included, since
`isin` is false for NaN) is overwritten with DESCONOCIDA. -/
def coerceUnknownVio (v : Option String) : String :=
  match v with
  | none => "DESCONOCIDA"
  | some s => if s = "SI" ∨ s = "NO" then s else "DESCONOCIDA"

/-- The composite VIOLENCIA normalization of app.py lines 36 and 37. -/
def normVio (v : Option String) : String :=
  coerceUnknownVio (stripUpperVio v)

/-- A month bucket: app.py line 34 truncates FECHA to the calendar month
(`dt.to_period` keeps year and month). -/
def MonthKey : Type := Int × Nat
deriving instance DecidableEq, Repr for MonthKey

/-- One cleaned and feature-enriched record of the loaded frame `df`
(app.py lines 29-37): only rows passing `keepRow` are enriched, so
`fecha`, `latitud` and `longitud` are present. -/
structure Record where
  fecha : Timestamp
  latitud : Rat
  longitud : Rat
  fechaMes : MonthKey
  horaClean : Option Int
  tipo : Option String
  violencia : String
  cuadrante : Option String
  distrito : Option String
deriving DecidableEq, Repr

/-- Feature engineering of app.py lines 34-37 applied to one retained row.
The `getD` defaults are never reached on a row with `keepRow r = true`. -/
def enrich (r : Row) : Record :=
  { fecha := r.fecha.getD ⟨0, 1, 1⟩
    latitud := r.latitud.getD 0
    longitud := r.longitud.getD 0
    fechaMes := ((r.fecha.getD ⟨0, 1, 1⟩).year, (r.fecha.getD ⟨0, 1, 1⟩).month)
    horaClean := horaCleanFn r.hora
    tipo := r.tipo
    violencia := normVio r.violencia
    cuadrante := r.cuadrante
    distrito := r.distrito }

/-- app.py lines 29-37: coerce the date, drop rows with a missing date or
coordinate, derive the features. This is the frame `df` that `load_data`
returns. -/
def cleanRows (rows : List Row) : List Record :=
  (rows.filter keepRow).map enrich

/-- The group key of app.py line 40 (`groupby(FECHA_MES, TIPO)`): present
exactly when TIPO is present (FECHA_MES always is on a retained row). -/
def keyOf (r : Record) : Option (MonthKey × String) :=
  r.tipo.map (fun t => (r.fechaMes, t))

/-- The multiset of group keys of the retained records: pandas `groupby`
drops rows whose key holds a NaN. -/
def keyList (recs : List Record) : List (MonthKey × String) :=
  recs.filterMap keyOf

/-- app.py line 40: `df.groupby([FECHA_MES, TIPO]).size()` — one row per
distinct (month, category) key with the number of records carrying it.
(pandas sorts the keys; key order is irrelevant to the claims proved
here, so keys are enumerated by deduplication.) -/
def dfMensual (recs : List Record) : List ((MonthKey × String) × Nat) :=
  (keyList recs).dedup.map (fun k => (k, (keyList recs).count k))

/-- The sum of all MonthlyAggregate counts. -/
def mensualSum (recs : List Record) : Nat :=
  ((dfMensual recs).map (fun e => e.2)).sum

/-- app.py line 83: `df.dropna(subset = HORA_CLEAN)` — the frame behind
the hourly distribution, records with an unknown hour excluded. -/
def dfHoraria (recs : List Record) : List Record :=
  recs.filter (fun r => r.horaClean.isSome)

/-- Lexicographic comparison of character lists by code point: the order
pandas sorts string values in. -/
def strLeB : List Char → List Char → Bool
  | [], _ => true
  | _ :: _, [] => false
  | a :: as, b :: bs =>
    if a.toNat < b.toNat then true
    else if b.toNat < a.toNat then false
    else strLeB as bs

/-- Lexicographic comparison of two strings by code point. -/
def pyStrLe (s t : String) : Bool :=
  strLeB s.data t.data

/-- The lexicographically smaller of two strings. -/
def minStr (a b : String) : String :=
  if pyStrLe a b then a else b

/-- The largest per-value count in a list of district labels: the count of
a modal value of the pandas series. -/
def countMax (l : List String) : Nat :=
  (l.map (fun v => l.count v)).foldr max 0

/-- The modal values of the series: the distinct values attaining the
maximal count (pandas `Series.mode()` before its ascending sort). -/
def modeCandidates (l : List String) : List String :=
  l.dedup.filter (fun v => l.count v = countMax l)

/-- The least string of a list (`none` on an empty list): the head of the
list after an ascending sort. -/
def leastStr : List String → Option String
  | [] => none
  | v :: l =>
    match leastStr l with
    | none => some v
    | some m => some (minStr v m)

/-- pandas `Series.mode()[0]`: the modal values are returned sorted
ascending, so index 0 is the least modal value; an all-NaN or empty
series has an empty mode and indexing it raises (here `none`). -/
def seriesModeZero (l : List String) : Option String :=
  leastStr (modeCandidates l)

/-- The rows of one CUADRANTE group (app.py line 43); a record with a
missing CUADRANTE belongs to no group, as pandas `groupby` drops it. -/
def zoneRows (recs : List Record) (z : String) : List Record :=
  recs.filter (fun r => r.cuadrante = some z)

/-- The district labels of one zone in original row order, the NaN cells
dropped as pandas `mode` drops them. -/
def zoneDistricts (recs : List Record) (z : String) : List String :=
  (zoneRows recs z).filterMap (fun r => r.distrito)

/-- app.py line 46: `DISTRITO = (DISTRITO, lambda x : x.mode()[0])` — the
dominant district of a zone. -/
def dominantDistrict (recs : List Record) (z : String) : Option String :=
  seriesModeZero (zoneDistricts recs z)

/-- Walk the list keeping each value the first time it is seen (`seen`
accumulates the values already emitted). -/
def firstSeenGo : List String → List String → List String
  | [], _ => []
  | v :: t, seen =>
    if seen.contains v then firstSeenGo t seen else v :: firstSeenGo t (v :: seen)

/-- Deduplication keeping the first occurrence of each value, in first
encountered order. -/
def firstSeenDedup (l : List String) : List String :=
  firstSeenGo l []

/-- Modelled from the claim text for comparison with the source: the mode
with ties broken by the value encountered first in original row order
(the tie-break policy the spec asserts). -/
def modeFirstEncountered (l : List String) : Option String :=
  ((firstSeenDedup l).filter (fun v => l.count v = countMax l)).head?

/-- One row of `df_coords` (app.py lines 43-47): the zone identifier, the
mean coordinates of the zone and its dominant district. -/
structure ZoneRef where
  cuadrante : String
  latAvg : Rat
  lonAvg : Rat
  distrito : String
deriving DecidableEq, Repr

/-- The arithmetic mean of pandas `agg(mean)` over a group column. -/
def meanRat (l : List Rat) : Rat :=
  l.sum / (l.length : Rat)

/-- app.py lines 43-47: `df.groupby(CUADRANTE).agg(...)` — one ZoneRef per
distinct zone present in the frame. A zone whose every district cell is
NaN makes `mode()[0]` raise IndexError, modelled as the error case. -/
def dfCoords (recs : List Record) : Except Unit (List ZoneRef) :=
  ((recs.filterMap (fun r => r.cuadrante)).dedup).mapM (fun z =>
    match dominantDistrict recs z with
    | none => Except.error ()
    | some d =>
      Except.ok
        { cuadrante := z
          latAvg := meanRat ((zoneRows recs z).map (fun r => r.latitud))
          lonAvg := meanRat ((zoneRows recs z).map (fun r => r.longitud))
          distrito := d })

/-- How the attempt to read the primary CSV went: the file was found and
parsed into rows, it was absent (`FileNotFoundError`), or it was present
but unreadable or corrupt (any other exception of `pd.read_csv`). -/
inductive ReadResult where
  | found (rows : List Row)
  | notFound
  | unreadable
deriving DecidableEq, Repr

/-- The triple `load_data` returns (app.py line 49), plus whether the
`st.error` banner of line 26 was shown. -/
structure LoadReturn where
  errorShown : Bool
  df : List Record
  mensual : List ((MonthKey × String) × Nat)
  coords : List ZoneRef
deriving DecidableEq, Repr

/-- app.py lines 17-49: only `FileNotFoundError` is caught (line 25) and
turned into an error banner plus three empty frames; any other read
failure, and an IndexError inside the aggregation, propagate as an
uncaught exception (`Except.error`). -/
def load_data (src : ReadResult) : Except Unit LoadReturn :=
  match src with
  | ReadResult.notFound =>
    Except.ok { errorShown := true, df := [], mensual := [], coords := [] }
  | ReadResult.unreadable => Except.error ()
  | ReadResult.found rows =>
    match dfCoords (cleanRows rows) with
    | Except.error e => Except.error e
    | Except.ok cs =>
      Except.ok
        { errorShown := false
          df := cleanRows rows
          mensual := dfMensual (cleanRows rows)
          coords := cs }

/-- app.py line 136: `if not df.empty :` — the whole dashboard body runs
only when the loaded frame is non-empty; an uncaught load exception stops
the script before any rendering. -/
def rendersDashboard (r : Except Unit LoadReturn) : Bool :=
  match r with
  | Except.error _ => false
  | Except.ok ret => !ret.df.isEmpty

/-- One row of an uploaded prediction table: the zone and the predicted
count for the coming period. -/
structure PredRow where
  cuadrante : String
  prediccion : Rat
deriving DecidableEq, Repr

/-- One row of the joined risk dataset `df_mapa_pred` (app.py line 104):
the prediction together with the centroid and dominant district of its
zone. -/
structure OverlayRow where
  cuadrante : String
  prediccion : Rat
  latAvg : Rat
  lonAvg : Rat
  distrito : String
deriving DecidableEq, Repr

/-- app.py line 104: `pd.merge(df_predicciones, df_coords, on = CUADRANTE,
how = inner)` — each prediction row, in order, paired with every ZoneRef
row carrying the same zone; a prediction without a match contributes
nothing. -/
def mergeInner (preds : List PredRow) (coords : List ZoneRef) : List OverlayRow :=
  match preds with
  | [] => []
  | p :: ps =>
    ((coords.filter (fun z => z.cuadrante = p.cuadrante)).map (fun z =>
        { cuadrante := p.cuadrante
          prediccion := p.prediccion
          latAvg := z.latAvg
          lonAvg := z.lonAvg
          distrito := z.distrito })) ++ mergeInner ps coords

/-- The predictions the inner join leaves out: those whose zone occurs in
no ZoneRef row, countable for a diagnostic message. -/
def unmatchedCount (preds : List PredRow) (coords : List ZoneRef) : Nat :=
  (preds.filter (fun p => !(coords.any (fun z => z.cuadrante == p.cuadrante)))).length

/-- app.py line 193: the required columns of an uploaded prediction
table. -/
def required_cols : List String := ["CUADRANTE", "PREDICCION_ROBOS_MES_N"]

/-- The columns of `df_coords` (app.py lines 43-47). -/
def coords_cols : List String := ["CUADRANTE", "LATITUD_AVG", "LONGITUD_AVG", "DISTRITO"]

/-- The columns of the merged frame `df_mapa_pred`: those of the upload
plus the non-shared coordinate columns (the uploads at issue share only
the key column CUADRANTE with `df_coords`, so pandas suffixing does not
arise). -/
def mergedCols (predCols : List String) : List String :=
  predCols ++ coords_cols.filter (fun c => !(predCols.contains c))

/-- What the upload branch of app.py lines 188-215 does with a file:
surface a sidebar schema error without running the join (line 195), or
run the join and then crash in `create_prediction_map` — caught by the
`except` of line 214 — or render the overlay. -/
inductive UploadOutcome where
  | schemaError (namedCols : List String)
  | exceptionCaught
  | rendered (overlay : List OverlayRow)
deriving DecidableEq, Repr

/-- app.py lines 192-212: the schema gate checks `required_cols` and its
error message names exactly the two required columns (line 195); past
the gate, `create_prediction_map` merges and then builds a figure
coloured by the column PREDICCION_ROBOS (lines 104-112), raising —
caught by line 214 — when the merged frame lacks it. -/
def handle_upload (cols : List String) (preds : List PredRow) (coords : List ZoneRef) :
    UploadOutcome :=
  if !(required_cols.all (fun c => cols.contains c)) then
    UploadOutcome.schemaError required_cols
  else if (mergedCols cols).contains "PREDICCION_ROBOS" then
    UploadOutcome.rendered (mergeInner preds coords)
  else
    UploadOutcome.exceptionCaught

/-- Whether the join with the ZoneRef table was reached: everything past
the schema gate merges first (app.py line 104 runs before any figure
work). -/
def joinAttempted (o : UploadOutcome) : Bool :=
  match o with
  | UploadOutcome.schemaError _ => false
  | _ => true

/-- Modelled from the claim text for comparison with the source: the list
of required columns absent from the upload, which the claim says the
surfaced error names. -/
def specAbsentCols (cols : List String) : List String :=
  required_cols.filter (fun c => !(cols.contains c))

/-- One row of the frame web.py loads (web.py lines 40-43 parse the date
strictly and clean nothing); only the columns the Dashboard Principal
statistics touch are modelled. -/
structure WRow where
  tipo : String
  anio : Int
  mes : Nat
  violencia : String
  distrito : String
  cuadrante : String
  estacion : String
deriving DecidableEq, Repr

/-- web.py lines 73-77: `df_filtrado` — the rows whose TIPO is among the
selected types and whose year lies in the selected range. -/
def wFiltrado (df : List WRow) (tipos : List String) (lo hi : Int) : List WRow :=
  df.filter (fun r => tipos.contains r.tipo && (decide (lo ≤ r.anio) && decide (r.anio ≤ hi)))

/-- web.py line 204 / 286: `df_filtrado.groupby(AÑO).size()` — one entry
per distinct year with its row count (key order irrelevant to the claims
proved here). -/
def anioSizes (df : List WRow) : List (Int × Nat) :=
  ((df.map (fun r => r.anio)).dedup).map (fun k => (k, (df.map (fun r => r.anio)).count k))

/-- web.py line 205 / 291: the same grouping by MES. -/
def mesSizes (df : List WRow) : List (Nat × Nat) :=
  ((df.map (fun r => r.mes)).dedup).map (fun k => (k, (df.map (fun r => r.mes)).count k))

/-- The scanning part of pandas `Series.idxmax`: the first key whose count
is maximal. -/
def idxmaxGo {α : Type} (best : α × Nat) : List (α × Nat) → α
  | [] => best.1
  | p :: ps => if best.2 < p.2 then idxmaxGo p ps else idxmaxGo best ps

/-- pandas `Series.idxmax` (web.py lines 286 and 291): the key of the
first maximal count; on an empty series it raises ValueError, modelled as
the error case. -/
def idxmaxE {α : Type} : List (α × Nat) → Except Unit α
  | [] => Except.error ()
  | p :: ps => Except.ok (idxmaxGo p ps)

/-- Insert one (value, count) pair into a count-descending list. -/
def insertDesc (p : String × Nat) : List (String × Nat) → List (String × Nat)
  | [] => [p]
  | q :: qs => if q.2 < p.2 then p :: q :: qs else q :: insertDesc p qs

/-- Sort (value, count) pairs by descending count. -/
def sortDesc : List (String × Nat) → List (String × Nat)
  | [] => []
  | p :: ps => insertDesc p (sortDesc ps)

/-- pandas `Series.value_counts()` (web.py lines 174, 241, 255, 296): one
entry per distinct value, counts descending; empty on an empty series. -/
def valueCounts (l : List String) : List (String × Nat) :=
  sortDesc ((firstSeenDedup l).map (fun v => (v, l.count v)))

/-- `value_counts().index[0]` (web.py line 296): the most frequent value;
indexing an empty result raises IndexError, modelled as the error case. -/
def headValueE (l : List (String × Nat)) : Except Unit String :=
  match l with
  | [] => Except.error ()
  | p :: _ => Except.ok p.1

/-- web.py lines 241 and 255: `value_counts().head(10)` — the top-10
ranking. -/
def topTen (l : List String) : List (String × Nat) :=
  (valueCounts l).take 10

/-- web.py lines 144-145: the violent-robbery share, explicitly guarded to
0 on an empty selection. -/
def porcentajeViolentos (df : List WRow) : Rat :=
  if 0 < df.length then
    (((df.filter (fun r => r.violencia = "SI")).length : Rat) / (df.length : Rat)) * 100
  else 0

/-- Whether a load result is the claimed DataUnavailable outcome: an
error banner together with an empty frame returned to the caller. -/
def isOkEmptySignal (r : Except Unit LoadReturn) : Bool :=
  match r with
  | Except.ok ret => ret.errorShown && ret.df.isEmpty
  | Except.error _ => false

/-- A row that is retained (valid date and coordinates) but carries no
category value. -/
def noTipoRow : Row :=
  { fecha := some ⟨2022, 1, 1⟩
    latitud := some 3
    longitud := some 4
    tipo := none
    violencia := some "NO"
    hora := some 10
    cuadrante := some "C9"
    distrito := some "D9" }

/-- A row retained by the loader whose raw hour is 50: present but out of
the [0,23] range the claim asserts. -/
def hour50Row : Row :=
  { fecha := some ⟨2021, 5, 1⟩
    latitud := some 1
    longitud := some 2
    tipo := some "ROBO A NEGOCIO"
    violencia := some "NO"
    hora := some 50
    cuadrante := some "C1"
    distrito := some "D1" }

/-- One record of zone Z7 with the given district label (the other fields
are irrelevant to the grouping). -/
def zRec (d : String) : Record :=
  { fecha := ⟨2020, 1, 1⟩
    latitud := 0
    longitud := 0
    fechaMes := ((2020 : Int), 1)
    horaClean := none
    tipo := some "ROBO A NEGOCIO"
    violencia := "NO"
    cuadrante := some "Z7"
    distrito := some d }

/-- Zone Z7 with districts BRAVO, BRAVO, ALFA, ALFA in original row
order: a two-way tie in which BRAVO is encountered first. -/
def demoZoneRecs : List Record :=
  [zRec "BRAVO", zRec "BRAVO", zRec "ALFA", zRec "ALFA"]

/-- The ZoneRef rows of the two known zones A and B. -/
def demoCoords : List ZoneRef :=
  [{ cuadrante := "A", latAvg := 1, lonAvg := 2, distrito := "DIAMANTE" },
   { cuadrante := "B", latAvg := 3, lonAvg := 4, distrito := "ESMERALDA" }]

/-- Predictions for zone A (known) and zone C (unknown). -/
def demoPreds : List PredRow :=
  [{ cuadrante := "A", prediccion := 5 }, { cuadrante := "C", prediccion := 7 }]

/-! ## Helper lemmas -/

theorem keepRow_eq_not_dropped (r : Row) : keepRow r = !droppedRow r := by
  cases hf : r.fecha <;> cases hl : r.latitud <;> cases hg : r.longitud <;>
    simp [keepRow, droppedRow, hf, hl, hg]

theorem cleanRows_length (rows : List Row) :
    (cleanRows rows).length = (rows.filter keepRow).length := by
  simp [cleanRows]

theorem count_instances_agree {K : Type} [BEq K] [LawfulBEq K] [DecidableEq K]
    (l : List K) (a : K) :
    l.count a = @List.count K instBEqOfDecidableEq a l := by
  induction l with
  | nil => rfl
  | cons b t ih =>
    rw [List.count_cons, @List.count_cons K instBEqOfDecidableEq, ih]
    by_cases h : a = b
    · simp [h]
    · simp [h]

theorem sum_count_dedup {K : Type} [BEq K] [LawfulBEq K] [DecidableEq K] (l : List K) :
    (l.dedup.map (fun k => l.count k)).sum = l.length := by
  have hmap : l.dedup.map (fun k => l.count k) =
      l.dedup.map (fun k => @List.count K instBEqOfDecidableEq k l) := by
    apply List.map_congr_left
    intro a _
    exact count_instances_agree l a
  have h1 : l.dedup.toFinset = l.toFinset := by
    ext a
    simp [List.mem_toFinset, List.mem_dedup]
  rw [hmap, ← List.sum_toFinset _ l.nodup_dedup, h1, List.sum_toFinset_count_eq_length]

theorem keyList_length (recs : List Record) :
    (keyList recs).length = (recs.filter (fun r => r.tipo.isSome)).length := by
  induction recs with
  | nil => rfl
  | cons r t ih =>
    cases h : r.tipo <;>
      simp [keyList, List.filterMap_cons, keyOf, h, List.filter_cons] <;>
      simp [keyList, keyOf] at ih <;>
      omega

theorem keyList_count (recs : List Record) (k : MonthKey × String) :
    (keyList recs).count k = (recs.filter (fun r => keyOf r = some k)).length := by
  induction recs with
  | nil => rfl
  | cons r t ih =>
    unfold keyList at ih ⊢
    cases h : keyOf r with
    | none =>
      rw [List.filterMap_cons, h, List.filter_cons, if_neg (by simp [h])]
      exact ih
    | some w =>
      rw [List.filterMap_cons, h, List.count_cons, List.filter_cons]
      by_cases hw : w = k
      · rw [if_pos (show (w == k) = true by simp [hw]),
          if_pos (show decide (keyOf r = some k) = true by simp [h, hw]),
          List.length_cons, ih]
      · have hwk : ¬ k = w := fun hh => hw hh.symm
        rw [if_neg (show ¬ (w == k) = true by simp [hw]),
          if_neg (show ¬ decide (keyOf r = some k) = true by simp [h, hw]),
          Nat.add_zero, ih]

theorem dfMensual_keys (recs : List Record) :
    (dfMensual recs).map Prod.fst = (keyList recs).dedup := by
  unfold dfMensual
  rw [List.map_map]
  have h : (Prod.fst ∘ fun k : MonthKey × String => (k, (keyList recs).count k)) = id := by
    funext k
    rfl
  rw [h, List.map_id]

theorem mensualSum_eq (recs : List Record) :
    mensualSum recs = (recs.filter (fun r => r.tipo.isSome)).length := by
  have h1 : mensualSum recs = (keyList recs).length := by
    show ((dfMensual recs).map (fun e => e.2)).sum = _
    unfold dfMensual
    rw [List.map_map]
    have hc : ((fun e : (MonthKey × String) × Nat => e.2) ∘
        (fun k => (k, (keyList recs).count k))) = fun k => (keyList recs).count k := by
      funext k
      rfl
    rw [hc]
    exact sum_count_dedup (keyList recs)
  rw [h1, keyList_length]

/-! ## C1: retention policy of the loader -/

/-- C1: the loader retains exactly the input rows that are not dropped for
an unparseable timestamp or a missing coordinate; every surviving row
keeps its coordinates unchanged (out-of-range values included), every
retained record comes from such a row, and a row is dropped exactly when
its date is NaT or a coordinate is missing. -/
theorem spec_C1 : ∀ rows : List Row,
    ((cleanRows rows).length + (rows.filter droppedRow).length = rows.length) ∧
    (∀ r ∈ rows, droppedRow r = false →
      ∃ rec ∈ cleanRows rows, some rec.latitud = r.latitud ∧ some rec.longitud = r.longitud) ∧
    (∀ rec ∈ cleanRows rows, ∃ r ∈ rows, droppedRow r = false ∧ rec = enrich r) ∧
    (∀ r : Row, droppedRow r = true ↔ (r.fecha = none ∨ r.latitud = none ∨ r.longitud = none)) := by
  intro rows
  refine ⟨?_, ?_, ?_, ?_⟩
  · have h : rows.length =
        (rows.filter keepRow).length + (rows.filter (fun a => !(keepRow a))).length :=
      List.length_eq_length_filter_add _
    have h2 : rows.filter (fun a => !(keepRow a)) = rows.filter droppedRow := by
      apply List.filter_congr
      intro a _
      rw [keepRow_eq_not_dropped, Bool.not_not]
    rw [h2] at h
    rw [cleanRows_length]
    omega
  · intro r hr hdrop
    have hk : keepRow r = true := by
      rw [keepRow_eq_not_dropped, hdrop]
      rfl
    have hmem : enrich r ∈ cleanRows rows :=
      List.mem_map_of_mem _ (List.mem_filter.mpr ⟨hr, hk⟩)
    have hsome := hk
    simp only [keepRow, Bool.and_eq_true, Option.isSome_iff_exists] at hsome
    obtain ⟨⟨⟨tf, hf⟩, ⟨x, hx⟩⟩, ⟨y, hy⟩⟩ := hsome
    exact ⟨enrich r, hmem, by simp [enrich, hx], by simp [enrich, hy]⟩
  · intro rec hrec
    rcases List.mem_map.mp hrec with ⟨r, hrf, hre⟩
    rcases List.mem_filter.mp hrf with ⟨hrm, hk⟩
    refine ⟨r, hrm, ?_, hre.symm⟩
    rw [keepRow_eq_not_dropped] at hk
    simpa using hk
  · intro r
    cases hf : r.fecha <;> cases hl : r.latitud <;> cases hg : r.longitud <;>
      simp [droppedRow, hf, hl, hg]

/-! ## C2: conservation of counts in the monthly aggregate -/

/-- C2 as stated fails: `noTipoRow` has a valid date and coordinates, so
it is retained (one record, whose TIPO is `none`), yet the
month-and-category grouping drops its missing key as pandas does, so the
MonthlyAggregate table is empty and its counts sum to 0, not 1. -/
theorem spec_C2_cex :
    (cleanRows [noTipoRow]).length = 1 ∧
    (cleanRows [noTipoRow]).map (fun r => r.tipo) = [none] ∧
    dfMensual (cleanRows [noTipoRow]) = [] ∧
    mensualSum (cleanRows [noTipoRow]) = 0 ∧
    (mensualSum (cleanRows [noTipoRow]) == (cleanRows [noTipoRow]).length) = false := by
  refine ⟨by decide, by decide, by decide, by decide, by decide⟩

/-- C2 amended: the MonthlyAggregate table has one row per distinct
(month, category) key occurring among the records, each holding exactly
its group's row count; the counts therefore sum to the number of
records that carry a category value, and when every retained record has
a category — for any record set, hence any filter selection — this is
exactly the conservation law the claim states. -/
theorem spec_C2_amended :
    (∀ (recs : List Record) (e : (MonthKey × String) × Nat), e ∈ dfMensual recs →
      e.2 = (recs.filter (fun r => keyOf r = some e.1)).length) ∧
    (∀ (recs : List Record) (k : MonthKey × String),
      k ∈ (dfMensual recs).map Prod.fst ↔ ∃ r ∈ recs, keyOf r = some k) ∧
    (∀ recs : List Record, ((dfMensual recs).map Prod.fst).Nodup) ∧
    (∀ recs : List Record, mensualSum recs = (recs.filter (fun r => r.tipo.isSome)).length) ∧
    (∀ rows : List Row, (∀ rec ∈ cleanRows rows, rec.tipo.isSome = true) →
      mensualSum (cleanRows rows) = (cleanRows rows).length) := by
  refine ⟨?_, ?_, ?_, mensualSum_eq, ?_⟩
  · intro recs e he
    rcases List.mem_map.mp he with ⟨k, _, hke⟩
    rw [← hke]
    exact keyList_count recs k
  · intro recs k
    rw [dfMensual_keys, List.mem_dedup]
    unfold keyList
    exact List.mem_filterMap
  · intro recs
    rw [dfMensual_keys]
    exact List.nodup_dedup _
  · intro rows hall
    rw [mensualSum_eq, List.filter_eq_self.mpr hall]

/-! ## C3: violence-flag normalization -/

theorem normVio_mem (v : Option String) :
    normVio v = "SI" ∨ normVio v = "NO" ∨ normVio v = "DESCONOCIDA" := by
  cases v with
  | none => exact Or.inr (Or.inr rfl)
  | some s =>
    by_cases h : pyUpper (pyStrip s) = "SI" ∨ pyUpper (pyStrip s) = "NO"
    · rcases h with h | h
      · exact Or.inl (by simp [normVio, stripUpperVio, coerceUnknownVio, h])
      · exact Or.inr (Or.inl (by simp [normVio, stripUpperVio, coerceUnknownVio, h]))
    · exact Or.inr (Or.inr (by simp [normVio, stripUpperVio, coerceUnknownVio, h]))

/-- C3: the normalization trims and upper-cases, maps exactly SI and NO to
themselves, everything else (a missing value included) to DESCONOCIDA,
takes no other value, and is idempotent. -/
theorem spec_C3 :
    (∀ v : Option String, normVio v = "SI" ∨ normVio v = "NO" ∨ normVio v = "DESCONOCIDA") ∧
    (∀ s : String, pyUpper (pyStrip s) = "SI" → normVio (some s) = "SI") ∧
    (∀ s : String, pyUpper (pyStrip s) = "NO" → normVio (some s) = "NO") ∧
    (∀ s : String, ¬ pyUpper (pyStrip s) = "SI" → ¬ pyUpper (pyStrip s) = "NO" →
      normVio (some s) = "DESCONOCIDA") ∧
    (normVio none = "DESCONOCIDA") ∧
    (∀ v : Option String, normVio (some (normVio v)) = normVio v) := by
  refine ⟨normVio_mem, ?_, ?_, ?_, rfl, ?_⟩
  · intro s h
    simp [normVio, stripUpperVio, coerceUnknownVio, h]
  · intro s h
    simp [normVio, stripUpperVio, coerceUnknownVio, h]
  · intro s h1 h2
    simp [normVio, stripUpperVio, coerceUnknownVio, h1, h2]
  · intro v
    rcases normVio_mem v with h | h | h <;> rw [h] <;> decide

/-! ## C5: the unknown-hour sentinel -/

/-- C5 as stated fails: only affecting the sentinel 99, the hour cleaning of
app.py line 35 lets an out-of-range source hour through, so a retained
record can hold a present hour outside [0,23]. -/
theorem spec_C5_cex :
    (cleanRows [hour50Row]).map (fun r => r.horaClean) = [some 50] ∧
    decide ((50 : Int) ≤ 23) = false := by
  refine ⟨by decide, by decide⟩

/-- C5 amended: the sentinel 99 is mapped to absent and every other source
hour value passes through unchanged; records with an unknown hour are
excluded from the hourly-distribution frame but counted by the monthly
aggregate exactly as records with a known hour; consequently the retained
hours are all in [0,23] provided every present source hour is in [0,23]
or is the sentinel. -/
theorem spec_C5_amended :
    (horaCleanFn (some 99) = none) ∧
    (∀ n : Int, ¬ n = 99 → horaCleanFn (some n) = some n) ∧
    (horaCleanFn none = none) ∧
    (∀ recs : List Record, ∀ r ∈ dfHoraria recs, r.horaClean.isSome = true) ∧
    (∀ recs : List Record, ∀ r ∈ recs, r.horaClean.isSome = true → r ∈ dfHoraria recs) ∧
    (∀ recs : List Record,
      dfMensual (recs.map (fun r => { r with horaClean := none })) = dfMensual recs) ∧
    (∀ rows : List Row,
      (∀ r ∈ rows, ∀ n : Int, r.hora = some n → (0 ≤ n ∧ n ≤ 23) ∨ n = 99) →
      ∀ rec ∈ cleanRows rows, ∀ n : Int, rec.horaClean = some n → 0 ≤ n ∧ n ≤ 23) := by
  refine ⟨by decide, ?_, rfl, ?_, ?_, ?_, ?_⟩
  · intro n h
    simp [horaCleanFn, h]
  · intro recs r hr
    exact (List.mem_filter.mp hr).2
  · intro recs r hr h
    exact List.mem_filter.mpr ⟨hr, h⟩
  · intro recs
    have hk : keyList (recs.map (fun r => { r with horaClean := none })) = keyList recs := by
      unfold keyList
      rw [List.filterMap_map]
      rfl
    unfold dfMensual
    rw [hk]
  · intro rows hsrc rec hrec n hn
    rcases List.mem_map.mp hrec with ⟨r, hrf, hre⟩
    rcases List.mem_filter.mp hrf with ⟨hrm, _⟩
    cases hh : r.hora with
    | none =>
      rw [← hre] at hn
      simp [enrich, horaCleanFn, hh] at hn
    | some m =>
      by_cases h99 : m = 99
      · rw [← hre] at hn
        simp [enrich, horaCleanFn, hh, h99] at hn
      · rw [← hre] at hn
        simp [enrich, horaCleanFn, hh, h99] at hn
        rcases hsrc r hrm m hh with hb | h9
        · omega
        · exact absurd h9 h99

/-! ## C4: order lemmas for the dominant-district mode -/

theorem strLeB_cons (x y : Char) (xs ys : List Char) :
    strLeB (x :: xs) (y :: ys) =
      if x.toNat < y.toNat then true
      else if y.toNat < x.toNat then false
      else strLeB xs ys := rfl

theorem strLeB_refl (l : List Char) : strLeB l l = true := by
  induction l with
  | nil => rfl
  | cons a as ih => simp [strLeB_cons, ih]

theorem strLeB_total (l m : List Char) : strLeB l m = true ∨ strLeB m l = true := by
  induction l generalizing m with
  | nil => exact Or.inl rfl
  | cons a as ih =>
    cases m with
    | nil => exact Or.inr rfl
    | cons b bs =>
      rcases Nat.lt_trichotomy a.toNat b.toNat with h | h | h
      · exact Or.inl (by simp [strLeB_cons, h])
      · rcases ih bs with h2 | h2
        · exact Or.inl (by simp [strLeB_cons, h, h2])
        · exact Or.inr (by simp [strLeB_cons, h, h2])
      · exact Or.inr (by simp [strLeB_cons, h])

theorem strLeB_trans (a b c : List Char) (h1 : strLeB a b = true) (h2 : strLeB b c = true) :
    strLeB a c = true := by
  induction a generalizing b c with
  | nil => rfl
  | cons x xs ih =>
    cases b with
    | nil => simp [strLeB] at h1
    | cons y ys =>
      cases c with
      | nil => simp [strLeB] at h2
      | cons z zs =>
        rw [strLeB_cons] at h1 h2 ⊢
        by_cases hxy : x.toNat < y.toNat
        · by_cases hyz : y.toNat < z.toNat
          · rw [if_pos (Nat.lt_trans hxy hyz)]
          · by_cases hzy : z.toNat < y.toNat
            · rw [if_neg hyz, if_pos hzy] at h2
              simp at h2
            · rw [if_pos (show x.toNat < z.toNat by omega)]
        · by_cases hyx : y.toNat < x.toNat
          · rw [if_neg hxy, if_pos hyx] at h1
            simp at h1
          · rw [if_neg hxy, if_neg hyx] at h1
            by_cases hyz : y.toNat < z.toNat
            · rw [if_pos (show x.toNat < z.toNat by omega)]
            · by_cases hzy : z.toNat < y.toNat
              · rw [if_neg hyz, if_pos hzy] at h2
                simp at h2
              · rw [if_neg hyz, if_neg hzy] at h2
                rw [if_neg (show ¬ x.toNat < z.toNat by omega),
                  if_neg (show ¬ z.toNat < x.toNat by omega)]
                exact ih ys zs h1 h2

theorem pyStrLe_refl (s : String) : pyStrLe s s = true :=
  strLeB_refl s.data

theorem pyStrLe_total (s t : String) : pyStrLe s t = true ∨ pyStrLe t s = true :=
  strLeB_total s.data t.data

theorem pyStrLe_trans (s t u : String) (h1 : pyStrLe s t = true) (h2 : pyStrLe t u = true) :
    pyStrLe s u = true :=
  strLeB_trans s.data t.data u.data h1 h2

theorem leastStr_eq_none (l : List String) (h : leastStr l = none) : l = [] := by
  cases l with
  | nil => rfl
  | cons a t =>
    exfalso
    cases ht : leastStr t <;> simp [leastStr, ht] at h

theorem leastStr_isSome (l : List String) (h : l ≠ []) : ∃ m, leastStr l = some m := by
  cases hm : leastStr l with
  | none => exact absurd (leastStr_eq_none l hm) h
  | some m => exact ⟨m, rfl⟩

theorem leastStr_le (l : List String) (m : String) (h : leastStr l = some m) :
    m ∈ l ∧ ∀ v ∈ l, pyStrLe m v = true := by
  induction l generalizing m with
  | nil => simp [leastStr] at h
  | cons a t ih =>
    cases ht : leastStr t with
    | none =>
      have hnil := leastStr_eq_none t ht
      subst hnil
      simp [leastStr] at h
      subst h
      refine ⟨by simp, ?_⟩
      intro v hv
      simp at hv
      subst hv
      exact pyStrLe_refl v
    | some w =>
      obtain ⟨hwmem, hwle⟩ := ih w ht
      simp [leastStr, ht] at h
      subst h
      unfold minStr
      by_cases hc : pyStrLe a w = true
      · rw [if_pos hc]
        refine ⟨List.mem_cons_self a t, ?_⟩
        intro v hv
        rcases List.mem_cons.mp hv with rfl | hvt
        · exact pyStrLe_refl v
        · exact pyStrLe_trans a w v hc (hwle v hvt)
      · rw [if_neg hc]
        refine ⟨List.mem_cons_of_mem a hwmem, ?_⟩
        intro v hv
        rcases List.mem_cons.mp hv with rfl | hvt
        · rcases pyStrLe_total w v with h2 | h2
          · exact h2
          · exact absurd h2 hc
        · exact hwle v hvt

theorem foldr_max_mem (ns : List Nat) (h : ns ≠ []) : ns.foldr max 0 ∈ ns := by
  induction ns with
  | nil => exact absurd rfl h
  | cons n t ih =>
    cases t with
    | nil => simp
    | cons m u =>
      have ht := ih (by simp)
      rcases max_choice n ((m :: u).foldr max 0) with hm | hm
      · rw [List.foldr_cons, hm]
        simp
      · rw [List.foldr_cons, hm]
        exact List.mem_cons_of_mem n ht

theorem foldr_max_ge (ns : List Nat) : ∀ x ∈ ns, x ≤ ns.foldr max 0 := by
  induction ns with
  | nil =>
    intro x hx
    simp at hx
  | cons n t ih =>
    intro x hx
    rw [List.foldr_cons]
    rcases List.mem_cons.mp hx with rfl | hxt
    · exact le_max_left _ _
    · exact le_trans (ih x hxt) (le_max_right _ _)

theorem count_le_countMax (l : List String) (v : String) (hv : v ∈ l) :
    l.count v ≤ countMax l :=
  foldr_max_ge _ _ (List.mem_map_of_mem _ hv)

theorem countMax_attained (l : List String) (h : l ≠ []) :
    ∃ v ∈ l, l.count v = countMax l := by
  have hm : countMax l ∈ l.map (fun v => l.count v) :=
    foldr_max_mem _ (by simpa using h)
  rcases List.mem_map.mp hm with ⟨v, hv, hcv⟩
  exact ⟨v, hv, hcv⟩

theorem modeCandidates_ne_nil (l : List String) (h : l ≠ []) : modeCandidates l ≠ [] := by
  rcases countMax_attained l h with ⟨v, hv, hcv⟩
  have hvm : v ∈ modeCandidates l :=
    List.mem_filter.mpr ⟨List.mem_dedup.mpr hv, by simp [hcv]⟩
  intro hnil
  rw [hnil] at hvm
  simp at hvm

theorem seriesModeZero_spec (l : List String) (h : l ≠ []) :
    ∃ d, seriesModeZero l = some d ∧ d ∈ l ∧ l.count d = countMax l ∧
      (∀ v ∈ l, l.count v ≤ l.count d) ∧
      (∀ v ∈ l, l.count v = l.count d → pyStrLe d v = true) := by
  obtain ⟨d, hd⟩ := leastStr_isSome (modeCandidates l) (modeCandidates_ne_nil l h)
  obtain ⟨hdmem, hdle⟩ := leastStr_le _ _ hd
  have hdl := List.mem_filter.mp hdmem
  have hdcount : l.count d = countMax l := by simpa using hdl.2
  refine ⟨d, hd, List.mem_dedup.mp hdl.1, hdcount, ?_, ?_⟩
  · intro v hv
    rw [hdcount]
    exact count_le_countMax l v hv
  · intro v hv hveq
    apply hdle
    exact List.mem_filter.mpr ⟨List.mem_dedup.mpr hv, by simp [hveq, hdcount]⟩

/-! ## C4: dominant district -/

/-- C4 as stated fails: on a tie the source picks the alphabetically least
modal district (`Series.mode()` sorts its result), not the district
encountered first in row order — here ALFA, although BRAVO comes first. -/
theorem spec_C4_cex :
    dominantDistrict demoZoneRecs "Z7" = some "ALFA" ∧
    modeFirstEncountered (zoneDistricts demoZoneRecs "Z7") = some "BRAVO" ∧
    ("ALFA" == "BRAVO") = false := by
  refine ⟨by decide, by decide, by decide⟩

/-- C4 amended: for every zone with at least one district label, the
dominant district is a modal district of the zone in original row order,
and among equally frequent districts the lexicographically least label is
selected (deterministically, by the ascending sort inside
`Series.mode()`), not the first-encountered one. -/
theorem spec_C4_amended (recs : List Record) (z : String)
    (h : zoneDistricts recs z ≠ []) :
    ∃ d, dominantDistrict recs z = some d ∧ d ∈ zoneDistricts recs z ∧
      (zoneDistricts recs z).count d = countMax (zoneDistricts recs z) ∧
      (∀ v ∈ zoneDistricts recs z,
        (zoneDistricts recs z).count v ≤ (zoneDistricts recs z).count d) ∧
      (∀ v ∈ zoneDistricts recs z,
        (zoneDistricts recs z).count v = (zoneDistricts recs z).count d →
          pyStrLe d v = true) :=
  seriesModeZero_spec (zoneDistricts recs z) h

/-- The amended C4 statement holds at the concrete tied zone Z7. -/
theorem spec_C4_witness :
    ∃ d, dominantDistrict demoZoneRecs "Z7" = some d ∧
      d ∈ zoneDistricts demoZoneRecs "Z7" ∧
      (zoneDistricts demoZoneRecs "Z7").count d =
        countMax (zoneDistricts demoZoneRecs "Z7") ∧
      (∀ v ∈ zoneDistricts demoZoneRecs "Z7",
        (zoneDistricts demoZoneRecs "Z7").count v ≤
          (zoneDistricts demoZoneRecs "Z7").count d) ∧
      (∀ v ∈ zoneDistricts demoZoneRecs "Z7",
        (zoneDistricts demoZoneRecs "Z7").count v =
          (zoneDistricts demoZoneRecs "Z7").count d → pyStrLe d v = true) :=
  spec_C4_amended demoZoneRecs "Z7" (by decide)

/-! ## C8: the prediction join -/

theorem mergeInner_cons (p : PredRow) (ps : List PredRow) (coords : List ZoneRef) :
    mergeInner (p :: ps) coords =
      ((coords.filter (fun z => z.cuadrante = p.cuadrante)).map (fun z =>
        { cuadrante := p.cuadrante
          prediccion := p.prediccion
          latAvg := z.latAvg
          lonAvg := z.lonAvg
          distrito := z.distrito })) ++ mergeInner ps coords := rfl

theorem filter_key_nil (coords : List ZoneRef) (k : String)
    (h : ∀ z ∈ coords, ¬ z.cuadrante = k) :
    coords.filter (fun z => z.cuadrante = k) = [] := by
  induction coords with
  | nil => rfl
  | cons c cs ih =>
    have hc := h c (List.mem_cons_self c cs)
    rw [List.filter_cons, if_neg (by simpa using hc)]
    exact ih (fun z hz => h z (List.mem_cons_of_mem c hz))

theorem filter_key_single (coords : List ZoneRef)
    (h : (coords.map ZoneRef.cuadrante).Nodup) (k : String)
    (hk : k ∈ coords.map ZoneRef.cuadrante) :
    ∃ z, coords.filter (fun w => w.cuadrante = k) = [z] ∧ z ∈ coords ∧ z.cuadrante = k := by
  induction coords with
  | nil => simp at hk
  | cons c cs ih =>
    rw [List.map_cons, List.nodup_cons] at h
    obtain ⟨hc, hcs⟩ := h
    by_cases hck : c.cuadrante = k
    · refine ⟨c, ?_, List.mem_cons_self c cs, hck⟩
      rw [List.filter_cons, if_pos (by simpa using hck)]
      have hrest : cs.filter (fun w => w.cuadrante = k) = [] := by
        apply filter_key_nil
        intro z hz heq
        exact hc (by rw [hck, ← heq]; exact List.mem_map_of_mem _ hz)
      rw [hrest]
    · have hk2 : k ∈ cs.map ZoneRef.cuadrante := by
        rcases List.mem_cons.mp (by simpa using hk : k ∈ c.cuadrante :: cs.map ZoneRef.cuadrante)
          with h1 | h1
        · exact absurd h1.symm hck
        · exact h1
      obtain ⟨z, hz1, hz2, hz3⟩ := ih hcs hk2
      refine ⟨z, ?_, List.mem_cons_of_mem c hz2, hz3⟩
      rw [List.filter_cons, if_neg (by simpa using hck), hz1]

/-- C8: with one ZoneRef row per zone, the joined RiskOverlay holds — in
order — exactly the prediction rows whose zone occurs in the reference
set, every overlay row carries the centroid and dominant district of its
matching ZoneRef row, and the unmatched predictions are counted by the
difference of the two lengths. -/
theorem spec_C8 (preds : List PredRow) (coords : List ZoneRef)
    (h : (coords.map ZoneRef.cuadrante).Nodup) :
    ((mergeInner preds coords).map (fun o => (o.cuadrante, o.prediccion)) =
      (preds.filter (fun p => coords.any (fun z => z.cuadrante == p.cuadrante))).map
        (fun p => (p.cuadrante, p.prediccion))) ∧
    (∀ o ∈ mergeInner preds coords, ∃ z ∈ coords, z.cuadrante = o.cuadrante ∧
      o.latAvg = z.latAvg ∧ o.lonAvg = z.lonAvg ∧ o.distrito = z.distrito) ∧
    (unmatchedCount preds coords + (mergeInner preds coords).length = preds.length) := by
  induction preds with
  | nil =>
    refine ⟨rfl, ?_, by simp [unmatchedCount, mergeInner]⟩
    intro o ho
    simp [mergeInner] at ho
  | cons p ps ih =>
    obtain ⟨ih1, ih2, ih3⟩ := ih
    by_cases hm : ∃ z ∈ coords, z.cuadrante = p.cuadrante
    · have hk : p.cuadrante ∈ coords.map ZoneRef.cuadrante := by
        rcases hm with ⟨z, hz, hzc⟩
        exact hzc ▸ List.mem_map_of_mem _ hz
      obtain ⟨z, hz1, hz2, hz3⟩ := filter_key_single coords h p.cuadrante hk
      have hany : coords.any (fun w => w.cuadrante == p.cuadrante) = true := by
        rcases hm with ⟨w, hw, hwc⟩
        exact List.any_eq_true.mpr ⟨w, hw, by simp [hwc]⟩
      refine ⟨?_, ?_, ?_⟩
      · rw [mergeInner_cons, hz1, List.filter_cons, if_pos (by simp [hany])]
        simpa using ih1
      · intro o ho
        rw [mergeInner_cons] at ho
        rcases List.mem_append.mp ho with h1 | h1
        · rcases List.mem_map.mp h1 with ⟨w, hw, hwo⟩
          have hwmem := (List.mem_filter.mp hw).1
          have hwc : w.cuadrante = p.cuadrante := by
            simpa using (List.mem_filter.mp hw).2
          refine ⟨w, hwmem, ?_, ?_, ?_, ?_⟩ <;> simp [← hwo, hwc]
        · exact ih2 o h1
      · have hlen : (mergeInner (p :: ps) coords).length = (mergeInner ps coords).length + 1 := by
          rw [mergeInner_cons, hz1]
          simp
        have hunm : unmatchedCount (p :: ps) coords = unmatchedCount ps coords := by
          unfold unmatchedCount
          rw [List.filter_cons, if_neg (by simp [hany])]
        rw [hlen, hunm, List.length_cons]
        omega
    · have hany : coords.any (fun w => w.cuadrante == p.cuadrante) = false := by
        cases hca : coords.any (fun w => w.cuadrante == p.cuadrante) with
        | false => rfl
        | true =>
          exfalso
          rcases List.any_eq_true.mp hca with ⟨w, hw, hwc⟩
          exact hm ⟨w, hw, by simpa using hwc⟩
      have hfil : coords.filter (fun w => w.cuadrante = p.cuadrante) = [] := by
        apply filter_key_nil
        intro w hw heq
        exact hm ⟨w, hw, heq⟩
      refine ⟨?_, ?_, ?_⟩
      · rw [mergeInner_cons, hfil, List.filter_cons, if_neg (by simp [hany])]
        simpa using ih1
      · intro o ho
        rw [mergeInner_cons, hfil] at ho
        simp only [List.map_nil, List.nil_append] at ho
        exact ih2 o ho
      · have hlen : (mergeInner (p :: ps) coords).length = (mergeInner ps coords).length := by
          rw [mergeInner_cons, hfil]
          simp
        have hunm : unmatchedCount (p :: ps) coords = unmatchedCount ps coords + 1 := by
          unfold unmatchedCount
          rw [List.filter_cons, if_pos (by simp [hany])]
          simp [Nat.add_comm]
        rw [hlen, hunm, List.length_cons]
        omega

/-- The spec scenario: ZoneReference {A, B} joined with predictions
{A, C} yields exactly the single A row and one countable unmatched
prediction; the general C8 statement holds at this input. -/
theorem spec_C8_witness :
    (mergeInner demoPreds demoCoords =
      [{ cuadrante := "A", prediccion := 5, latAvg := 1, lonAvg := 2,
         distrito := "DIAMANTE" }]) ∧
    unmatchedCount demoPreds demoCoords = 1 ∧
    (((mergeInner demoPreds demoCoords).map (fun o => (o.cuadrante, o.prediccion)) =
      (demoPreds.filter (fun p => demoCoords.any (fun z => z.cuadrante == p.cuadrante))).map
        (fun p => (p.cuadrante, p.prediccion))) ∧
    (∀ o ∈ mergeInner demoPreds demoCoords, ∃ z ∈ demoCoords, z.cuadrante = o.cuadrante ∧
      o.latAvg = z.latAvg ∧ o.lonAvg = z.lonAvg ∧ o.distrito = z.distrito) ∧
    (unmatchedCount demoPreds demoCoords + (mergeInner demoPreds demoCoords).length =
      demoPreds.length)) :=
  ⟨by decide, by decide, spec_C8 demoPreds demoCoords (by decide)⟩

/-! ## C6 and C7: the upload schema gate -/

/-- C6 as stated fails on the error text: an upload missing only
PREDICCION_ROBOS_MES_N is rejected with the fixed message naming both
required columns, not the list of absent columns. -/
theorem spec_C6_cex :
    handle_upload ["CUADRANTE"] [] [] = UploadOutcome.schemaError required_cols ∧
    specAbsentCols ["CUADRANTE"] = ["PREDICCION_ROBOS_MES_N"] ∧
    (required_cols == ["PREDICCION_ROBOS_MES_N"]) = false := by
  refine ⟨by decide, by decide, by decide⟩

/-- C6 amended: on any upload missing a required column a schema error
naming the full required set — the absent columns among them, without
singling them out — is surfaced and the join is never attempted; the
join step runs exactly when all required columns are present. -/
theorem spec_C6_amended :
    ∀ (cols : List String) (preds : List PredRow) (coords : List ZoneRef),
    (required_cols.all (fun c => cols.contains c) = false →
      handle_upload cols preds coords = UploadOutcome.schemaError required_cols ∧
      joinAttempted (handle_upload cols preds coords) = false ∧
      ∀ c ∈ specAbsentCols cols, c ∈ required_cols) ∧
    (required_cols.all (fun c => cols.contains c) = true →
      joinAttempted (handle_upload cols preds coords) = true) := by
  intro cols preds coords
  constructor
  · intro hfail
    have h1 : handle_upload cols preds coords = UploadOutcome.schemaError required_cols := by
      unfold handle_upload
      rw [hfail]
      rfl
    refine ⟨h1, by rw [h1]; rfl, ?_⟩
    intro c hc
    exact (List.mem_filter.mp hc).1
  · intro hok
    unfold handle_upload
    rw [hok]
    cases hc : (mergedCols cols).contains "PREDICCION_ROBOS" <;>
      simp [joinAttempted, hc]

/-- C7 evaluated on the code: the schema gate rejects an upload in the
CUADRANTE/PREDICCION_ROBOS form outright; an upload in the
CUADRANTE/PREDICCION_ROBOS_MES_N form passes the gate but the overlay
figure, coloured by the absent PREDICCION_ROBOS column, raises and is
swallowed by the except-branch; only an upload carrying both prediction
columns reaches a rendered overlay. -/
theorem spec_C7_eval :
    handle_upload ["CUADRANTE", "PREDICCION_ROBOS"] [] [] =
      UploadOutcome.schemaError required_cols ∧
    handle_upload ["CUADRANTE", "PREDICCION_ROBOS_MES_N"] [] [] =
      UploadOutcome.exceptionCaught ∧
    handle_upload ["CUADRANTE", "PREDICCION_ROBOS", "PREDICCION_ROBOS_MES_N"] [] [] =
      UploadOutcome.rendered [] := by
  refine ⟨by decide, by decide, by decide⟩

/-! ## C9: empty filter selections in web.py -/

/-- C9 evaluated on the code: with an empty category selection the
filtered frame is empty; the plain grouping aggregates (value counts,
top-10, monthly and yearly group sizes as tables) and the guarded
percentage metric all degrade to empty or zero, but the derived
statistics of web.py lines 286-296 (idxmax of the yearly and monthly
group sizes, index 0 of the district value counts) raise on the empty
frame instead of degrading. -/
theorem spec_C9_eval :
    ∀ (df : List WRow) (lo hi : Int),
    wFiltrado df [] lo hi = [] ∧
    idxmaxE (anioSizes (wFiltrado df [] lo hi)) = Except.error () ∧
    idxmaxE (mesSizes (wFiltrado df [] lo hi)) = Except.error () ∧
    headValueE (valueCounts ((wFiltrado df [] lo hi).map (fun r => r.distrito))) =
      Except.error () ∧
    valueCounts ((wFiltrado df [] lo hi).map (fun r => r.tipo)) = [] ∧
    topTen ((wFiltrado df [] lo hi).map (fun r => r.cuadrante)) = [] ∧
    porcentajeViolentos (wFiltrado df [] lo hi) = 0 := by
  intro df lo hi
  have h0 : wFiltrado df [] lo hi = [] := by
    unfold wFiltrado
    induction df with
    | nil => rfl
    | cons r t ih =>
      rw [List.filter_cons]
      simp only [List.contains_nil, Bool.false_and, if_false]
      exact ih
  refine ⟨h0, ?_, ?_, ?_, ?_, ?_, ?_⟩ <;> rw [h0] <;> rfl

/-! ## C10: a missing or unreadable primary source -/

/-- C10 as stated fails for a present-but-unreadable source: only
FileNotFoundError is caught (app.py line 25), so no error banner with an
empty result set is produced — the exception propagates uncaught. -/
theorem spec_C10_cex :
    load_data ReadResult.unreadable = Except.error () ∧
    isOkEmptySignal (load_data ReadResult.unreadable) = false := by
  refine ⟨rfl, rfl⟩

/-- C10 amended: when the source file is not found the loader shows the
error banner and returns empty frames and the module-level guard
suppresses every piece of dashboard rendering; any other read failure
propagates as an uncaught exception — which also renders nothing, but
not through the empty-result path the claim describes. -/
theorem spec_C10_amended :
    load_data ReadResult.notFound =
      Except.ok { errorShown := true, df := [], mensual := [], coords := [] } ∧
    rendersDashboard (load_data ReadResult.notFound) = false ∧
    load_data ReadResult.unreadable = Except.error () ∧
    rendersDashboard (load_data ReadResult.unreadable) = false := by
  refine ⟨rfl, rfl, rfl, rfl⟩
